import Mathlib

/-
Verification of the easy-cli live chat display and footer input subsystem.

Shallow embedding of:
  * src/easycli/chat_display.py  (class LiveChatDisplay)
  * src/easycli/input_box.py     (class InputBox)

Conventions of the embedding:
  * Timestamps and durations are integers (the code uses time.time floats,
    but no claim depends on fractional time).
  * Python truthiness of strings is modelled as inequality with the empty
    string, and truthiness of optional timestamps as "present and nonzero".
  * Rendering heights come from the external rich library
    (console.render_lines); they are modelled as an oracle function giving
    the number of rendered lines of each message, with the max(1, ...)
    clamping from the source applied in the model.
-/

/-- A chat message record as stored in LiveChatDisplay.messages: a dict with
role, content, and (for assistant messages appended by
finish_assistant_message) a duration entry.  User messages carry no duration
key, modelled as none. -/
structure Msg where
  role : String
  content : String
  duration : Option Int := none
deriving Repr, DecidableEq

/-- The mutable state of a LiveChatDisplay instance: the message log, the
in-progress streaming text and its start timestamp, the footer status string,
the Live handle (none before start, some b where b says whether the Live
object is currently started), the remembered alternate-screen preference, and
the footer sizing fields. -/
structure LiveChatDisplay where
  messages : List Msg
  current_streaming : String
  current_streaming_start_time : Option Int
  status : String
  live : Option Bool
  alt_screen : Bool
  footer_size : Nat
  input_reserved_lines : Nat
deriving Repr, DecidableEq

namespace LiveChatDisplay

/-- The state right after LiveChatDisplay.__init__ with default arguments:
empty log, no streaming, status "ready", no Live object yet, footer size 5,
two reserved input lines. -/
def init : LiveChatDisplay :=
  { messages := []
    current_streaming := ""
    current_streaming_start_time := none
    status := "ready"
    live := none
    alt_screen := false
    footer_size := 5
    input_reserved_lines := 2 }

/-- LiveChatDisplay._update_footer: stores the status and resizes the footer
slot (4 fixed lines plus the reserved input block when input is active,
5 lines otherwise).  The renderable it installs is produced by
InputBox.render, modelled separately as a pure function. -/
def update_footer (s : LiveChatDisplay) (status : String) (input_mode : Bool) :
    LiveChatDisplay :=
  { s with
    status := status
    footer_size := if input_mode then 4 + s.input_reserved_lines else 5 }

/-- LiveChatDisplay.start: remembers the alternate-screen preference, creates
a Live object and starts it. -/
def start (s : LiveChatDisplay) (use_alt_screen : Bool) : LiveChatDisplay :=
  { s with alt_screen := use_alt_screen, live := some true }

/-- LiveChatDisplay.stop: stops the Live object if one exists.  Note the
source does not clear self.live, so the handle stays present. -/
def stop (s : LiveChatDisplay) : LiveChatDisplay :=
  match s.live with
  | some _ => { s with live := some false }
  | none => s

/-- The display is Running when a Live object exists and is started. -/
def IsRunning (s : LiveChatDisplay) : Prop := s.live = some true

instance (s : LiveChatDisplay) : Decidable s.IsRunning := by
  unfold IsRunning; infer_instance

/-- LiveChatDisplay.pause, the context manager.  It captures
was_running = bool(self.live), stops when running, runs the body (external
code that may raise), and in the finally block restarts with the remembered
alternate-screen mode and resets the footer to non-input display with
status or "ready".  The body is abstracted to whether it raises; the raised
exception propagates after the finally block, reported in the second
component. -/
def pauseScope (s : LiveChatDisplay) (body_raises : Bool) :
    LiveChatDisplay × Bool :=
  let was_running := s.live.isSome
  let s1 := if was_running then s.stop else s
  let s2 :=
    if was_running then
      let s3 := s1.start s1.alt_screen
      s3.update_footer (if s3.status = "" then "ready" else s3.status) false
    else s1
  (s2, body_raises)

/-- LiveChatDisplay.add_user_message: appends a user record (no duration
key). -/
def add_user_message (s : LiveChatDisplay) (content : String) :
    LiveChatDisplay :=
  { s with messages := s.messages ++ [⟨"user", content, none⟩] }

/-- LiveChatDisplay.start_assistant_message at wall-clock time now: clears
the accumulated text, records the start time, and sets the footer status to
"typing". -/
def start_assistant_message (s : LiveChatDisplay) (now : Int) :
    LiveChatDisplay :=
  update_footer
    { s with current_streaming := "", current_streaming_start_time := some now }
    "typing" false

/-- LiveChatDisplay.append_streaming: concatenates the chunk onto the
accumulated streaming text. -/
def append_streaming (s : LiveChatDisplay) (chunk : String) :
    LiveChatDisplay :=
  { s with current_streaming := s.current_streaming ++ chunk }

/-- LiveChatDisplay.finish_assistant_message at wall-clock time now: when the
accumulated text is nonempty, computes the duration (only when the start
timestamp is truthy, that is present and nonzero), appends the assistant
record, and clears both streaming fields; in all cases resets the footer
status to "ready". -/
def finish_assistant_message (s : LiveChatDisplay) (now : Int) :
    LiveChatDisplay :=
  let s1 :=
    if s.current_streaming ≠ "" then
      let dur : Option Int :=
        match s.current_streaming_start_time with
        | some t0 => if t0 ≠ 0 then some (now - t0) else none
        | none => none
      { s with
        messages := s.messages ++ [⟨"assistant", s.current_streaming, dur⟩]
        current_streaming := ""
        current_streaming_start_time := none }
    else s
  update_footer s1 "ready" false

/-- LiveChatDisplay.clear_messages: empties the log and the accumulated
streaming text.  The source does not touch current_streaming_start_time. -/
def clear_messages (s : LiveChatDisplay) : LiveChatDisplay :=
  { s with messages := [], current_streaming := "" }

end LiveChatDisplay

/-
Chat renderer (LiveChatDisplay._update_chat, the visible-window part).

When the log is nonempty or a stream is in progress, the source measures each
rendered message with console.render_lines at the console width, clamps each
height with max(1, len(lines)), and fills the chat region bottom-up: first
the streaming message (newest), then history newest to oldest, breaking when
a message no longer fits.  Heights of the rich renderables are supplied by an
oracle (hMsg for history records, hStream for the streaming render); the
max(1, ...) clamp from the source is applied here.
-/

/-- One entry of the visible list built by _update_chat: either a rendered
history message or the rendered in-progress streaming message. -/
inductive VisBlock where
  | hist (m : Msg)
  | stream (text : String)
deriving Repr, DecidableEq

/-- The clamped rendered height of a visible block, as accumulated by
_update_chat: max(1, number of rendered lines). -/
def blockHeight (hMsg : Msg → Nat) (hStream : Nat) : VisBlock → Nat
  | VisBlock.hist m => max 1 (hMsg m)
  | VisBlock.stream _ => max 1 hStream

/-- Total clamped height of a list of visible blocks. -/
def blocksHeight (hMsg : Msg → Nat) (hStream : Nat) (l : List VisBlock) : Nat :=
  (l.map (blockHeight hMsg hStream)).sum

/-- The history-filling loop of _update_chat: walk reversed(self.messages),
and for each message either break (when used + h > chat_h) or prepend it to
the visible list and add its height to used. -/
def visibleFitLoop (hMsg : Msg → Nat) (chatH : Nat) :
    List Msg → List VisBlock → Nat → List VisBlock × Nat
  | [], visible, used => (visible, used)
  | m :: rest, visible, used =>
    let h := max 1 (hMsg m)
    if chatH < used + h then (visible, used)
    else visibleFitLoop hMsg chatH rest (VisBlock.hist m :: visible) (used + h)

/-- The visible-window computation of _update_chat: seed the visible list
with the streaming message when current_streaming is nonempty and its clamped
height fits the budget (when it does not fit it is skipped, without stopping
the history walk), then fill with history via visibleFitLoop.  Returns the
visible list in chronological order together with the accumulated used
height. -/
def update_chat_visible (hMsg : Msg → Nat) (hStream : Nat)
    (messages : List Msg) (current_streaming : String) (chatH : Nat) :
    List VisBlock × Nat :=
  let seed : List VisBlock × Nat :=
    if current_streaming ≠ "" then
      let h := max 1 hStream
      if 0 + h ≤ chatH then ([VisBlock.stream current_streaming], 0 + h)
      else ([], 0)
    else ([], 0)
  visibleFitLoop hMsg chatH messages.reverse seed.1 seed.2

/-- The chat-region height budget computed by _update_chat:
max(3, terminal height - header height - footer height). -/
def chatRegionHeight (term_h header_h footer_h : Int) : Nat :=
  (max 3 (term_h - header_h - footer_h)).toNat

/-
Input box (src/easycli/input_box.py).
-/

/-- Configuration of the footer input component (InputBox.__init__).  The
constructor clamps footer_offset with max(1, ...). -/
structure InputBox where
  left_label : String
  tips : String
  placeholder : String
  footer_offset : Nat
deriving Repr, DecidableEq

/-- Kind of a logical footer row, for stating the row-structure property. -/
inductive RowKind where
  | status
  | rule
  | input
  | tips
deriving Repr, DecidableEq

/-- One logical row of the renderable Group returned by InputBox.render:
the status Text, a Rule, the input/placeholder Text (wrap records whether
wrapping is allowed, that is whether no_wrap/crop was NOT set), or the
left-label/tips grid row. -/
inductive FooterRow where
  | statusRow (content : String)
  | ruleRow
  | inputRow (content : String) (wrap : Bool)
  | tipsRow (left right : String)
deriving Repr, DecidableEq

/-- The kind of a footer row. -/
def FooterRow.kind : FooterRow → RowKind
  | FooterRow.statusRow _ => RowKind.status
  | FooterRow.ruleRow => RowKind.rule
  | FooterRow.inputRow _ _ => RowKind.input
  | FooterRow.tipsRow _ _ => RowKind.tips

/-- InputBox.render: builds the status renderable ("Ready" for status
"ready", "Typing..." for "typing", otherwise the status text itself, whether
parsed as markup or, on a parse failure, used as plain text), the input row
(wrapping allowed exactly when input is active; placeholder shown when
inactive with empty text), and returns the Group of the five renderables
status / rule / input / rule / left-label+tips. -/
def InputBox.render (box : InputBox) (status : String) (user_input : String)
    (input_active : Bool) : List FooterRow :=
  let status_renderable :=
    if status = "ready" then FooterRow.statusRow "Ready"
    else if status = "typing" then FooterRow.statusRow "Typing..."
    else FooterRow.statusRow status
  let prompt :=
    if input_active then
      FooterRow.inputRow (if user_input ≠ "" then "> " ++ user_input else "> ") true
    else if user_input ≠ "" then
      FooterRow.inputRow ("> " ++ user_input) false
    else
      FooterRow.inputRow ("> " ++ box.placeholder) false
  [status_renderable, FooterRow.ruleRow, prompt, FooterRow.ruleRow,
    FooterRow.tipsRow box.left_label box.tips]

/-- Python str slicing buf[:-1]: drop the last character (identity on the
empty string). -/
def pyDropLast (s : String) : String := String.mk s.data.dropLast

/-- Python whitespace test used by str.strip (the ASCII whitespace
characters). -/
def pyIsSpace (c : Char) : Bool :=
  c == ' ' || c == '\t' || c == '\n' || c == '\r' || c == '\x0b' || c == '\x0c'

/-- Python str.strip(): remove leading and trailing whitespace. -/
def pyStrip (s : String) : String :=
  String.mk (((s.data.dropWhile pyIsSpace).reverse.dropWhile pyIsSpace).reverse)

/-- One event seen by the inline (cbreak) read loop: either a character
delivered by sys.stdin.read(1), or an exception raised at that point of the
loop (a failed read, or a failing on_change callback). -/
inductive InEv where
  | ch (c : Char)
  | err
deriving Repr, DecidableEq

/-- How the inline collection loop of InputBox.read ends: normal break on
Enter/Return carrying the collected buffer (before strip), a KeyboardInterrupt
raised on Ctrl-C, an ordinary exception escaping the loop with the buffer
collected so far, or the loop still waiting for input when the modelled event
stream is exhausted. -/
inductive LoopResult where
  | done (buf : String)
  | interrupt
  | exc (buf : String)
  | blocked
deriving Repr, DecidableEq

/-- The inline collection loop of InputBox.read: per character, Enter/Return
breaks; 0x08/0x7f drops the last buffered character; 0x03 raises
KeyboardInterrupt; ESC consumes up to two immediately following bytes via
sys.stdin.read(2) without buffering them; characters at or above the space
character append; other control characters are ignored. -/
def inlineLoop : List InEv → String → LoopResult
  | [], _ => LoopResult.blocked
  | InEv.err :: _, buf => LoopResult.exc buf
  | InEv.ch c :: rest, buf =>
    if c = '\r' ∨ c = '\n' then LoopResult.done buf
    else if c = '\x08' ∨ c = '\x7f' then inlineLoop rest (pyDropLast buf)
    else if c = '\x03' then LoopResult.interrupt
    else if c = '\x1b' then
      match rest with
      | [] => LoopResult.blocked
      | InEv.err :: _ => LoopResult.exc buf
      | [InEv.ch _] => LoopResult.blocked
      | InEv.ch _ :: InEv.err :: _ => LoopResult.exc buf
      | InEv.ch _ :: InEv.ch _ :: rest2 => inlineLoop rest2 buf
    else if 32 ≤ c.toNat then inlineLoop rest (buf.push c)
    else inlineLoop rest buf

/-- Result of an InputBox.read call: a returned string, a propagating
KeyboardInterrupt, or a read still blocked waiting for input. -/
inductive ReadOutcome where
  | ok (s : String)
  | interrupt
  | blocked
deriving Repr, DecidableEq

/-- InputBox.read in inline mode: run the collection loop on an empty buffer;
on a normal break return the stripped buffer; a KeyboardInterrupt is not an
Exception in Python, so it propagates; any other exception is caught by the
fallback handler, which delegates to a fresh prompt read and returns that
stripped line (the collected buffer is discarded). -/
def readInline (events : List InEv) (prompt_fallback : String) : ReadOutcome :=
  match inlineLoop events "" with
  | LoopResult.done buf => ReadOutcome.ok (pyStrip buf)
  | LoopResult.interrupt => ReadOutcome.interrupt
  | LoopResult.exc _ => ReadOutcome.ok (pyStrip prompt_fallback)
  | LoopResult.blocked => ReadOutcome.blocked

/-- Outcome of the blocking cooked-line read used by the footer strategy:
a line, end-of-file, or a KeyboardInterrupt. -/
inductive LineEv where
  | line (s : String)
  | eof
  | interrupt
deriving Repr, DecidableEq

/-- InputBox.read in footer mode: inside the pause scope, input("") is read;
EOFError yields the empty line; the result is stripped.  Only EOFError is
caught, so a KeyboardInterrupt propagates. -/
def readFooter : LineEv → ReadOutcome
  | LineEv.line s => ReadOutcome.ok (pyStrip s)
  | LineEv.eof => ReadOutcome.ok (pyStrip "")
  | LineEv.interrupt => ReadOutcome.interrupt

/-
Helper lemmas about streaming accumulation.
-/

/-- Folding append_streaming over a list of chunks only changes the
accumulated streaming text, concatenating the chunks in call order. -/
theorem foldl_append_streaming (chunks : List String) (s : LiveChatDisplay) :
    chunks.foldl LiveChatDisplay.append_streaming s
      = { s with current_streaming :=
            chunks.foldl (fun a c => a ++ c) s.current_streaming } := by
  induction chunks generalizing s with
  | nil => rfl
  | cons c cs ih =>
    simp only [List.foldl]
    rw [ih]
    rfl

/-- Length of a left fold of string concatenation. -/
theorem foldl_append_length (chunks : List String) (a : String) :
    (chunks.foldl (fun x c => x ++ c) a).length
      = a.length + (chunks.map String.length).sum := by
  induction chunks generalizing a with
  | nil => simp
  | cons c cs ih =>
    simp only [List.foldl, List.map, List.sum_cons]
    rw [ih, String.length_append]
    omega

/-- If some chunk is nonempty, the concatenation of all chunks is
nonempty. -/
theorem foldl_append_ne_empty (chunks : List String) (c : String)
    (hc : c ∈ chunks) (hne : c ≠ "") :
    chunks.foldl (fun x d => x ++ d) "" ≠ "" := by
  intro h
  have hlen := foldl_append_length chunks ""
  rw [h] at hlen
  have hmem : c.length ∈ chunks.map String.length := List.mem_map_of_mem _ hc
  have hle : c.length ≤ (chunks.map String.length).sum :=
    List.single_le_sum (fun x _ => Nat.zero_le x) _ hmem
  have hcz : c.length = 0 := by omega
  apply hne
  cases c with
  | mk data =>
    have hdl : data.length = 0 := hcz
    have hdata : data = [] := List.length_eq_zero.mp hdl
    rw [hdata]

/-- Claim C1: for every sequence of append_streaming chunks between one
start_assistant_message call and the next finish_assistant_message call, if
at least one chunk is nonempty, the assistant message appended to the log by
finish_assistant_message has content exactly the concatenation of the chunks
in call order. -/
theorem c1_streaming_concat (s : LiveChatDisplay) (t0 t1 : Int)
    (chunks : List String) (h : ∃ c ∈ chunks, c ≠ "") :
    ∃ dur,
      ((chunks.foldl LiveChatDisplay.append_streaming
          (s.start_assistant_message t0)).finish_assistant_message t1).messages
        = s.messages ++ [⟨"assistant", String.join chunks, dur⟩] := by
  obtain ⟨c, hc, hne⟩ := h
  rw [foldl_append_streaming]
  have hjoin : String.join chunks = chunks.foldl (fun a c => a ++ c) "" := rfl
  have hstart :
      (s.start_assistant_message t0).current_streaming = "" := rfl
  rw [hstart]
  have hnz : chunks.foldl (fun a c => a ++ c) "" ≠ "" :=
    foldl_append_ne_empty chunks c hc hne
  simp only [LiveChatDisplay.finish_assistant_message,
    LiveChatDisplay.update_footer, LiveChatDisplay.start_assistant_message]
  rw [if_pos hnz]
  exact ⟨if t0 ≠ 0 then some (t1 - t0) else none, by rw [hjoin]⟩

/-- Witness for C1 at the spec scenario chunks. -/
theorem c1_streaming_concat_witness :
    ∃ dur,
      (((["This is a test ", "response."].foldl
          LiveChatDisplay.append_streaming
          (LiveChatDisplay.init.start_assistant_message 100))).finish_assistant_message
          102).messages
        = LiveChatDisplay.init.messages
            ++ [⟨"assistant", String.join ["This is a test ", "response."], dur⟩] :=
  c1_streaming_concat LiveChatDisplay.init 100 102
    ["This is a test ", "response."]
    ⟨"response.", by simp, by decide⟩

/-- Claim C6: finish_assistant_message called while the accumulated streaming
text is empty adds no entry to the message log. -/
theorem c6_finish_empty_noop (s : LiveChatDisplay) (now : Int)
    (h : s.current_streaming = "") :
    (s.finish_assistant_message now).messages = s.messages := by
  simp [LiveChatDisplay.finish_assistant_message,
    LiveChatDisplay.update_footer, h]

/-- Witness for C6 at the initial state. -/
theorem c6_finish_empty_noop_witness :
    (LiveChatDisplay.init.finish_assistant_message 0).messages
      = LiveChatDisplay.init.messages :=
  c6_finish_empty_noop LiveChatDisplay.init 0 rfl

/-- Claim C5 counterexample: clear_messages empties the log and the
accumulated text, but it does not reset the started-at timestamp, so with
StreamingState comprising both components, clearing mid-stream leaves part of
the StreamingState in place (started-at stays some 5 instead of none). -/
theorem c5_clear_counterexample :
    (((LiveChatDisplay.init.start_assistant_message 5).append_streaming
        "hi").clear_messages).messages = []
    ∧ (((LiveChatDisplay.init.start_assistant_message 5).append_streaming
        "hi").clear_messages).current_streaming = ""
    ∧ (((LiveChatDisplay.init.start_assistant_message 5).append_streaming
        "hi").clear_messages).current_streaming_start_time = some 5
    ∧ (((LiveChatDisplay.init.start_assistant_message 5).append_streaming
        "hi").clear_messages).current_streaming_start_time ≠ none := by
  refine ⟨rfl, rfl, rfl, ?_⟩
  decide

/-- Claim C5 (amended): after clear_messages the message log is empty and the
accumulated streaming text is empty, but the started-at timestamp is left
exactly as it was; only the text component of the StreamingState is
cleared. -/
theorem c5_clear_messages_amended (s : LiveChatDisplay) :
    (s.clear_messages).messages = []
    ∧ (s.clear_messages).current_streaming = ""
    ∧ (s.clear_messages).current_streaming_start_time
        = s.current_streaming_start_time :=
  ⟨rfl, rfl, rfl⟩

/-
Helper lemmas about the visible-window fit loop.
-/

/-- Total clamped height of a cons. -/
theorem blocksHeight_cons (hMsg : Msg → Nat) (hStream : Nat) (b : VisBlock)
    (l : List VisBlock) :
    blocksHeight hMsg hStream (b :: l)
      = blockHeight hMsg hStream b + blocksHeight hMsg hStream l := by
  simp [blocksHeight]

/-- The fit loop preserves the invariant that the accumulated used height
equals the total clamped height of the visible list and stays within the
budget. -/
theorem visibleFitLoop_height (hMsg : Msg → Nat) (hStream : Nat) (chatH : Nat) :
    ∀ (r : List Msg) (vis : List VisBlock) (used : Nat),
      blocksHeight hMsg hStream vis = used → used ≤ chatH →
      blocksHeight hMsg hStream (visibleFitLoop hMsg chatH r vis used).1
          = (visibleFitLoop hMsg chatH r vis used).2
        ∧ (visibleFitLoop hMsg chatH r vis used).2 ≤ chatH := by
  intro r
  induction r with
  | nil =>
    intro vis used h1 h2
    exact ⟨h1, h2⟩
  | cons m rest ih =>
    intro vis used h1 h2
    by_cases hcond : chatH < used + max 1 (hMsg m)
    · simp only [visibleFitLoop, if_pos hcond]
      exact ⟨h1, h2⟩
    · simp only [visibleFitLoop, if_neg hcond]
      apply ih
      · rw [blocksHeight_cons, h1]
        simp only [blockHeight]
        omega
      · omega

/-- The visible list built by the fit loop is, up to the seed, the reversal
of a prefix of the walked (already reversed) history. -/
theorem visibleFitLoop_take (hMsg : Msg → Nat) (chatH : Nat) :
    ∀ (r : List Msg) (vis : List VisBlock) (used : Nat),
      ∃ j, (visibleFitLoop hMsg chatH r vis used).1
        = ((r.take j).reverse.map VisBlock.hist) ++ vis := by
  intro r
  induction r with
  | nil =>
    intro vis used
    exact ⟨0, by simp [visibleFitLoop]⟩
  | cons m rest ih =>
    intro vis used
    by_cases hcond : chatH < used + max 1 (hMsg m)
    · exact ⟨0, by simp [visibleFitLoop, if_pos hcond]⟩
    · obtain ⟨j, hj⟩ := ih (VisBlock.hist m :: vis) (used + max 1 (hMsg m))
      refine ⟨j + 1, ?_⟩
      simp only [visibleFitLoop, if_neg hcond]
      rw [hj]
      simp [List.take_succ_cons, List.map_append, List.append_assoc]

/-- The reversal of a taken piece of the reversed list is a suffix of the
original list. -/
theorem reverse_take_reverse_suffix (l : List Msg) (j : Nat) :
    ((l.reverse.take j).reverse) <:+ l := by
  refine ⟨(l.reverse.drop j).reverse, ?_⟩
  rw [← List.reverse_append, List.take_append_drop, List.reverse_reverse]

/-- Claim C2: the visible set computed by _update_chat has total measured
height (the sum of the clamped per-block rendered heights it accumulates)
equal to its used counter and never exceeding the supplied chat-region
height; in particular, when no stream is shown and even the newest message
alone overflows the budget, the visible set is empty rather than a truncated
render of that message. -/
theorem c2_visible_height_bound (hMsg : Msg → Nat) (hStream : Nat)
    (msgs : List Msg) (streaming : String) (chatH : Nat) :
    (blocksHeight hMsg hStream
          (update_chat_visible hMsg hStream msgs streaming chatH).1
        = (update_chat_visible hMsg hStream msgs streaming chatH).2
      ∧ (update_chat_visible hMsg hStream msgs streaming chatH).2 ≤ chatH)
    ∧ (streaming = "" → ∀ m rest, msgs.reverse = m :: rest →
        chatH < max 1 (hMsg m) →
        (update_chat_visible hMsg hStream msgs streaming chatH).1 = []) := by
  constructor
  · unfold update_chat_visible
    apply visibleFitLoop_height
    · by_cases h1 : streaming ≠ ""
      · rw [if_pos h1]
        by_cases h2 : 0 + max 1 hStream ≤ chatH
        · rw [if_pos h2]
          simp [blocksHeight, blockHeight]
        · rw [if_neg h2]
          rfl
      · rw [if_neg h1]
        rfl
    · by_cases h1 : streaming ≠ ""
      · rw [if_pos h1]
        by_cases h2 : 0 + max 1 hStream ≤ chatH
        · rw [if_pos h2]
          exact h2
        · rw [if_neg h2]
          exact Nat.zero_le _
      · rw [if_neg h1]
        exact Nat.zero_le _
  · intro hs m rest hrev hover
    unfold update_chat_visible
    rw [hrev]
    have hseed : (if streaming ≠ "" then
        if 0 + max 1 hStream ≤ chatH
        then ([VisBlock.stream streaming], 0 + max 1 hStream)
        else (([] : List VisBlock), 0)
      else (([] : List VisBlock), 0)) = (([] : List VisBlock), 0) := by
      simp [hs]
    rw [hseed]
    simp only [visibleFitLoop]
    rw [if_pos (by omega : chatH < 0 + max 1 (hMsg m))]

/-- Witness for C2: with the minimum chat budget of 3 rows and a newest
assistant message whose render is 4 lines high (a header line plus a 3-line
body), the visible set is empty. -/
theorem c2_visible_height_bound_witness :
    (update_chat_visible (fun _ => 4) 1
        [⟨"assistant", "l1\nl2\nl3", none⟩] "" 3).1 = [] :=
  (c2_visible_height_bound (fun _ => 4) 1
      [⟨"assistant", "l1\nl2\nl3", none⟩] "" 3).2 rfl
    ⟨"assistant", "l1\nl2\nl3", none⟩ [] rfl (by decide)

/-- Claim C3 counterexample: with the minimum chat budget of 3 rows, a
five-line streaming message (whose render is 6 lines: animated header plus
body) does not fit and is skipped, while the one-line user message still
fills the region; so a streaming message is present yet absent from the
visible set, which the claim as stated forbids. -/
theorem c3_visible_suffix_counterexample :
    ("a\nb\nc\nd\ne" : String) ≠ ""
    ∧ (update_chat_visible (fun _ => 1) 6
          [⟨"user", "hi", none⟩] "a\nb\nc\nd\ne" 3).1
        = [VisBlock.hist ⟨"user", "hi", none⟩]
    ∧ VisBlock.stream "a\nb\nc\nd\ne"
        ∉ (update_chat_visible (fun _ => 1) 6
            [⟨"user", "hi", none⟩] "a\nb\nc\nd\ne" 3).1 := by
  refine ⟨by decide, rfl, by decide⟩

/-- Claim C3 (amended): the visible set computed by _update_chat is a
contiguous suffix of the message log (no gaps, chronological order), followed
by the in-progress streaming message exactly when a streaming message is
present and its clamped rendered height fits the chat budget; a streaming
render too tall for the budget is skipped while history still fills the
region. -/
theorem c3_visible_suffix_amended (hMsg : Msg → Nat) (hStream : Nat)
    (msgs : List Msg) (streaming : String) (chatH : Nat) :
    ∃ t, t <:+ msgs
      ∧ (update_chat_visible hMsg hStream msgs streaming chatH).1
          = t.map VisBlock.hist
            ++ (if streaming ≠ "" ∧ max 1 hStream ≤ chatH
                then [VisBlock.stream streaming] else []) := by
  by_cases h1 : streaming ≠ ""
  · by_cases h2 : 0 + max 1 hStream ≤ chatH
    · have hEq : update_chat_visible hMsg hStream msgs streaming chatH
          = visibleFitLoop hMsg chatH msgs.reverse
              [VisBlock.stream streaming] (0 + max 1 hStream) := by
        unfold update_chat_visible
        rw [if_pos h1, if_pos h2]
      obtain ⟨j, hj⟩ := visibleFitLoop_take hMsg chatH msgs.reverse
        [VisBlock.stream streaming] (0 + max 1 hStream)
      refine ⟨(msgs.reverse.take j).reverse,
        reverse_take_reverse_suffix msgs j, ?_⟩
      rw [hEq, hj,
        if_pos (show streaming ≠ "" ∧ max 1 hStream ≤ chatH from
          ⟨h1, by omega⟩)]
    · have hEq : update_chat_visible hMsg hStream msgs streaming chatH
          = visibleFitLoop hMsg chatH msgs.reverse [] 0 := by
        unfold update_chat_visible
        rw [if_pos h1, if_neg h2]
      obtain ⟨j, hj⟩ := visibleFitLoop_take hMsg chatH msgs.reverse [] 0
      refine ⟨(msgs.reverse.take j).reverse,
        reverse_take_reverse_suffix msgs j, ?_⟩
      rw [hEq, hj,
        if_neg (show ¬(streaming ≠ "" ∧ max 1 hStream ≤ chatH) from
          fun hv => h2 (by have := hv.2; omega))]
  · have hEq : update_chat_visible hMsg hStream msgs streaming chatH
        = visibleFitLoop hMsg chatH msgs.reverse [] 0 := by
      unfold update_chat_visible
      rw [if_neg h1]
    obtain ⟨j, hj⟩ := visibleFitLoop_take hMsg chatH msgs.reverse [] 0
    refine ⟨(msgs.reverse.take j).reverse,
      reverse_take_reverse_suffix msgs j, ?_⟩
    rw [hEq, hj,
      if_neg (show ¬(streaming ≠ "" ∧ max 1 hStream ≤ chatH) from
        fun hv => h1 hv.1)]

/-- Claim C4: if the display is Running on entry to the pause scoped block,
it is Running again after the block exits, both on normal return and when the
body raises (the exception still propagates, reported unchanged in the second
component). -/
theorem c4_pause_restores_running (s : LiveChatDisplay) (body_raises : Bool)
    (h : s.IsRunning) :
    (s.pauseScope body_raises).1.IsRunning
      ∧ (s.pauseScope body_raises).2 = body_raises := by
  have hsome : s.live.isSome = true := by
    rw [h]
    rfl
  constructor
  · show (s.pauseScope body_raises).1.live = some true
    simp only [LiveChatDisplay.pauseScope, hsome, if_pos,
      LiveChatDisplay.stop, LiveChatDisplay.start, LiveChatDisplay.update_footer]
  · rfl

/-- Witness for C4: a freshly started display goes through a pause block
whose body raises, and is Running afterwards. -/
theorem c4_pause_restores_running_witness :
    ((LiveChatDisplay.init.start false).pauseScope true).1.IsRunning
      ∧ ((LiveChatDisplay.init.start false).pauseScope true).2 = true :=
  c4_pause_restores_running (LiveChatDisplay.init.start false) true rfl

/-- Claim C7 counterexample: an exception raised after the buffer holds "a"
does not make the inline read return the best-effort buffer; the handler
falls back to a fresh prompt read (here returning "zz"), discarding the
buffer; and a Ctrl-C during collection is a KeyboardInterrupt, which is not
an Exception, so it propagates instead of being returned. -/
theorem c7_read_failure_counterexample :
    readInline [InEv.ch 'a', InEv.err] "zz" = ReadOutcome.ok "zz"
    ∧ readInline [InEv.ch 'a', InEv.err] "zz" ≠ ReadOutcome.ok "a"
    ∧ readInline [InEv.ch 'a', InEv.ch '\x03'] "zz"
        = ReadOutcome.interrupt := by
  refine ⟨rfl, by decide, rfl⟩

/-- Claim C7 (amended): an exception during inline collection is caught
(KeyboardInterrupt excepted, which propagates) and the read falls back to the
prompt strategy, returning the freshly prompted stripped line and discarding
the collected buffer; the footer strategy returns an empty string on
end-of-file. -/
theorem c7_read_failure_fallback :
    (∀ (events : List InEv) (buf p : String),
      inlineLoop events "" = LoopResult.exc buf →
        readInline events p = ReadOutcome.ok (pyStrip p))
    ∧ readFooter LineEv.eof = ReadOutcome.ok "" := by
  constructor
  · intro events buf p h
    unfold readInline
    rw [h]
  · rfl

/-- Witness for C7 (amended): an exception as the very first loop event makes
the inline read return the stripped prompt-fallback line. -/
theorem c7_read_failure_fallback_witness :
    readInline [InEv.err] "hello" = ReadOutcome.ok (pyStrip "hello") :=
  c7_read_failure_fallback.1 [InEv.err] "" "hello" rfl

/-- Claim C8: the inline strategy on bytes a, b, Backspace, c, Enter returns
exactly "ac"; both Backspace encodings 0x7f and 0x08 behave the same way. -/
theorem c8_inline_backspace_scenario (p : String) :
    readInline
        [InEv.ch 'a', InEv.ch 'b', InEv.ch '\x7f', InEv.ch 'c', InEv.ch '\r']
        p = ReadOutcome.ok "ac"
    ∧ readInline
        [InEv.ch 'a', InEv.ch 'b', InEv.ch '\x08', InEv.ch 'c', InEv.ch '\r']
        p = ReadOutcome.ok "ac" :=
  ⟨rfl, rfl⟩

/-- Claim C9: for every status string, user input and input-active flag, the
InputBox render output consists of exactly 5 logical rows in the order
status / rule / input-or-placeholder / rule / left-label+tips. -/
theorem c9_render_five_rows (box : InputBox) (status user_input : String)
    (input_active : Bool) :
    (box.render status user_input input_active).map FooterRow.kind
        = [RowKind.status, RowKind.rule, RowKind.input, RowKind.rule,
            RowKind.tips]
    ∧ (box.render status user_input input_active).length = 5 := by
  unfold InputBox.render
  constructor
  · split_ifs <;> rfl
  · split_ifs <;> rfl

/-- Claim C10: a Backspace/Delete byte (either encoding, 0x7f or 0x08)
received while the inline buffer is empty is a safe no-op for every following
byte sequence (Python slicing of the empty string raises nothing), and the
byte sequence Backspace, a, Enter therefore returns "a" under either
encoding. -/
theorem c10_backspace_empty_noop :
    (∀ (events : List InEv),
      inlineLoop (InEv.ch '\x7f' :: events) "" = inlineLoop events "")
    ∧ (∀ (events : List InEv),
      inlineLoop (InEv.ch '\x08' :: events) "" = inlineLoop events "")
    ∧ (∀ (p : String),
      readInline [InEv.ch '\x7f', InEv.ch 'a', InEv.ch '\r'] p
        = ReadOutcome.ok "a")
    ∧ (∀ (p : String),
      readInline [InEv.ch '\x08', InEv.ch 'a', InEv.ch '\r'] p
        = ReadOutcome.ok "a") := by
  refine ⟨?_, ?_, ?_, ?_⟩
  · intro events
    have h1 : ¬('\x7f' = '\r' ∨ '\x7f' = '\n') := by decide
    have h2 : ('\x7f' = '\x08' ∨ '\x7f' = '\x7f') := by decide
    rw [inlineLoop.eq_def]
    dsimp only
    rw [if_neg h1, if_pos h2, show pyDropLast "" = "" from rfl]
  · intro events
    have h1 : ¬('\x08' = '\r' ∨ '\x08' = '\n') := by decide
    have h2 : ('\x08' = '\x08' ∨ '\x08' = '\x7f') := by decide
    rw [inlineLoop.eq_def]
    dsimp only
    rw [if_neg h1, if_pos h2, show pyDropLast "" = "" from rfl]
  · intro p
    rfl
  · intro p
    rfl
